import Mathlib

/-!
Verification of the Flask JWT authentication backend (`src/app.py`).

The Python source is shallowly embedded as pure Lean functions.  HTTP
requests are explicit values; the clock (`now`, in epoch seconds) and the
process environment are explicit parameters.  The third-party JWT library
(`jwt.encode` / `jwt.decode`, HMAC-SHA256) is idealized: an encoded token
either is a well-formed token carrying its payload and the secret it was
signed with (signature verification succeeds exactly when the verifying
secret equals the signing secret, the standard idealization of an
unforgeable MAC), or is a malformed string.  `jwt.decode` validates the
signature first and then the `exp` claim, raising `ExpiredSignatureError`
when `exp <= now` and `InvalidTokenError` on a malformed token or a
signature mismatch; both are modelled as explicit error results.
-/

namespace AuthLab

/-- The JWT claim set built by `generate_token` in `src/app.py`:
`username`, issued-at and expiry, both in epoch seconds. -/
structure Payload where
  username : String
  iat : Nat
  exp : Nat
deriving DecidableEq, Repr

/-- Idealized model of an encoded JWT string: either a token signed (HMAC-SHA256)
with some secret over a payload, or a string that is not a well-formed JWT. -/
inductive Token where
  | signed (payload : Payload) (secret : String)
  | malformed (s : String)
deriving DecidableEq, Repr

/-- Result of the library call `jwt.decode`: the decoded payload, or one of the
two exception classes caught by `verify_token` in `src/app.py`. -/
inductive DecodeResult where
  | ok (p : Payload)
  | expiredSignatureError
  | invalidTokenError
deriving DecidableEq, Repr

/-- Model of `jwt.encode(payload, secret, algorithm="HS256")`. -/
def jwtEncode (p : Payload) (secret : String) : Token :=
  Token.signed p secret

/-- Model of `jwt.decode(token, secret, algorithms=["HS256"])` at time `now`:
malformed input or a signature made with a different secret raises
`InvalidTokenError`; a good signature whose `exp` is not in the future raises
`ExpiredSignatureError`; otherwise the payload is returned. -/
def jwtDecode (t : Token) (secret : String) (now : Nat) : DecodeResult :=
  match t with
  | Token.malformed _ => DecodeResult.invalidTokenError
  | Token.signed p s =>
      if s ≠ secret then DecodeResult.invalidTokenError
      else if p.exp ≤ now then DecodeResult.expiredSignatureError
      else DecodeResult.ok p

/-- `JWT_EXPIRATION_HOURS = 24` (src/app.py line 20): a hardcoded constant. -/
def JWT_EXPIRATION_HOURS : Nat := 24

/-- Embedding of `generate_token(username)` (src/app.py lines 45-57).
`signFail` models whether the `try` body raises (the `except` branch returns
`None`); `now` is `datetime.utcnow()` in epoch seconds, and the `timedelta`
of `JWT_EXPIRATION_HOURS` hours is `JWT_EXPIRATION_HOURS * 3600` seconds. -/
def generate_token (secret : String) (now : Nat) (signFail : Bool) (username : String) : Option Token :=
  if signFail then none
  else some (jwtEncode { username := username, iat := now, exp := now + JWT_EXPIRATION_HOURS * 3600 } secret)

/-- Embedding of `verify_token(token)` (src/app.py lines 60-68): decode, and
map both `ExpiredSignatureError` and `InvalidTokenError` to `None`. -/
def verify_token (secret : String) (now : Nat) (t : Token) : Option Payload :=
  match jwtDecode t secret now with
  | DecodeResult.ok p => some p
  | DecodeResult.expiredSignatureError => none
  | DecodeResult.invalidTokenError => none

/-- Python `str.strip()` with no argument: drop leading and trailing
whitespace. -/
def pyStrip (s : String) : String :=
  String.mk ((((s.data.dropWhile Char.isWhitespace).reverse).dropWhile Char.isWhitespace).reverse)

/-- ASCII lower-casing of one character, as Python `str.lower()` acts on the
ASCII range used here. -/
def lowerChar (c : Char) : Char :=
  if 65 ≤ c.toNat ∧ c.toNat ≤ 90 then Char.ofNat (c.toNat + 32) else c

/-- Python `str.lower()`. -/
def pyLower (s : String) : String := String.mk (s.data.map lowerChar)

/-- Helper for `pySplit`: accumulate the current word (reversed). -/
def pySplitAux : List Char → List Char → List String
  | [], acc => if acc.isEmpty then [] else [String.mk acc.reverse]
  | c :: cs, acc =>
      if c.isWhitespace then
        if acc.isEmpty then pySplitAux cs [] else String.mk acc.reverse :: pySplitAux cs []
      else pySplitAux cs (c :: acc)

/-- Python `str.split()` with no argument: split on runs of whitespace,
discarding empty pieces. -/
def pySplit (s : String) : List String := pySplitAux s.data []

/-- Embedding of `get_token_from_header()` (src/app.py lines 71-86).  The
`Authorization` header is `none` when absent; Python treats the empty string
as falsy, `auth_header.split()` splits on whitespace discarding empty pieces,
and the scheme comparison is case-insensitive. -/
def get_token_from_header (authHeader : Option String) : Option String :=
  match authHeader with
  | none => none
  | some h =>
      if h = "" then none
      else
        match pySplit h with
        | [scheme, tok] => if pyLower scheme = "bearer" then some tok else none
        | _ => none

/-- Outcome of the `token_required` decorator: either the request is rejected
with an HTTP status, a success flag and a message — the wrapped handler is
never invoked — or control proceeds to the wrapped handler with the username
resolved from the verified token bound to `request.username`. -/
inductive GuardResult where
  | reject (status : Nat) (success : Bool) (message : String)
  | proceed (username : String)
deriving DecidableEq, Repr

/-- Embedding of the `decorated` wrapper produced by `token_required`
(src/app.py lines 89-113).  `interp` is the JWT wire-format reading of the
extracted token string (part of the idealized library model); `secret` and
`now` are the server secret and the current time. -/
def token_required (interp : String → Token) (secret : String) (now : Nat)
    (authHeader : Option String) : GuardResult :=
  match get_token_from_header authHeader with
  | none => GuardResult.reject 401 false "Missing or invalid authorization header"
  | some tok =>
      if tok = "" then GuardResult.reject 401 false "Missing or invalid authorization header"
      else
        match verify_token secret now (interp tok) with
        | none => GuardResult.reject 401 false "Token expired or invalid"
        | some payload => GuardResult.proceed payload.username

/-- A user record of the dummy database (src/app.py lines 30-41). -/
structure UserRecord where
  username : String
  password : String
  email : String
deriving DecidableEq, Repr

/-- The `USERS` dictionary (src/app.py lines 30-41). -/
def USERS : List (String × UserRecord) :=
  [("admin", ⟨"admin", "password123", "admin@example.com"⟩),
   ("user", ⟨"user", "password123", "user@example.com"⟩)]

/-- Dictionary lookup `users.get(k)`. -/
def usersGet (users : List (String × UserRecord)) (k : String) : Option UserRecord :=
  (users.find? (fun kv => kv.1 == k)).map (fun kv => kv.2)

/-- The parsed JSON body of a `/login` request: each field is `none` when the
key is absent (`data.get` then supplies the default). -/
structure LoginBody where
  username : Option String
  password : Option String
deriving DecidableEq, Repr

/-- JSON response of the `/login` handler together with its HTTP status;
fields absent from a given response are `none`. -/
structure LoginResponse where
  status : Nat
  success : Bool
  message : String
  token : Option Token := none
  username : Option String := none
  expiresIn : Option Nat := none
deriving DecidableEq, Repr

/-- Embedding of the `POST /login` handler (src/app.py lines 141-209).
`body` is `request.get_json()`: `none` models a missing/falsy JSON body.
Python `.strip()` is `String.trim`; `not username`/`not password` test for
the empty string; the password comparison is exact. -/
def login (secret : String) (now : Nat) (signFail : Bool)
    (users : List (String × UserRecord)) (body : Option LoginBody) : LoginResponse :=
  match body with
  | none => { status := 400, success := false, message := "Request body must be JSON" }
  | some data =>
      let username := pyStrip (data.username.getD "")
      let password := data.password.getD ""
      if username = "" ∨ password = "" then
        { status := 400, success := false, message := "Username and password are required" }
      else
        match usersGet users username with
        | none =>
            { status := 401, success := false, message := "Invalid username or password" }
        | some user =>
            if user.password ≠ password then
              { status := 401, success := false, message := "Invalid username or password" }
            else
              match generate_token secret now signFail username with
              | none => { status := 500, success := false, message := "Failed to generate token" }
              | some tok =>
                  { status := 200, success := true, message := "Login successful",
                    token := some tok, username := some username,
                    expiresIn := some (JWT_EXPIRATION_HOURS * 3600) }

/-- JSON response of the `/protected` handler with its HTTP status. -/
structure ProtectedResponse where
  status : Nat
  success : Bool
  message : String
  username : Option String := none
deriving DecidableEq, Repr

/-- Embedding of the `GET /protected` handler (src/app.py lines 212-241),
including its `token_required` decorator: the handler body runs only when the
guard proceeds, and then reads `request.username`. -/
def protectedRoute (interp : String → Token) (secret : String) (now : Nat)
    (authHeader : Option String) : ProtectedResponse :=
  match token_required interp secret now authHeader with
  | GuardResult.reject st su msg => { status := st, success := su, message := msg }
  | GuardResult.proceed u =>
      { status := 200, success := true,
        message := "Access granted to protected endpoint", username := some u }

/-- The parsed JSON body of a `/verify` request: `token` is `none` when the
key is absent from the JSON object. -/
structure VerifyBody where
  token : Option String
deriving DecidableEq, Repr

/-- JSON response of the `/verify` handler with its HTTP status. -/
structure VerifyResponse where
  status : Nat
  success : Bool
  valid : Bool
  message : Option String := none
  username : Option String := none
  iat : Option Nat := none
  exp : Option Nat := none
deriving DecidableEq, Repr

/-- Embedding of the `POST /verify` handler (src/app.py lines 244-292). -/
def verifyRoute (interp : String → Token) (secret : String) (now : Nat)
    (body : Option VerifyBody) : VerifyResponse :=
  match body with
  | none =>
      { status := 400, success := false, valid := false, message := some "Token is required" }
  | some data =>
      match data.token with
      | none =>
          { status := 400, success := false, valid := false, message := some "Token is required" }
      | some tokStr =>
          match verify_token secret now (interp tokStr) with
          | some p =>
              { status := 200, success := true, valid := true,
                username := some p.username, iat := some p.iat, exp := some p.exp }
          | none =>
              { status := 401, success := false, valid := false,
                message := some "Token is invalid or expired" }

/-- JSON response of the `/health` handler (src/app.py lines 131-138). -/
structure HealthResponse where
  status : Nat
  success : Bool
  message : String
  timestamp : Nat
deriving DecidableEq, Repr

/-- Embedding of the `GET /health` handler. -/
def healthRoute (now : Nat) : HealthResponse :=
  { status := 200, success := true,
    message := "Authentication Lab Backend is running", timestamp := now }

/-- The server state shared by all handlers after startup: the credential
store `USERS` and the module-level `SECRET_KEY`. -/
structure ServerState where
  users : List (String × UserRecord)
  secretKey : String
deriving DecidableEq, Repr

/-- An incoming HTTP request, dispatched by route. -/
inductive Request where
  | health
  | loginReq (body : Option LoginBody)
  | protectedReq (authHeader : Option String)
  | verifyReq (body : Option VerifyBody)
  | unknownRoute
deriving DecidableEq, Repr

/-- The response of whichever handler served the request; the 404 handler
(src/app.py lines 295-301) serves unknown routes. -/
inductive RouteResponse where
  | healthR (r : HealthResponse)
  | loginR (r : LoginResponse)
  | protectedR (r : ProtectedResponse)
  | verifyR (r : VerifyResponse)
  | notFoundR (status : Nat) (success : Bool) (message : String)
deriving DecidableEq, Repr

/-- One request/response cycle of the Flask app: dispatch to the handler for
the route and return the response together with the server state after the
request.  Embedded from src/app.py, whose handlers only read `USERS` and
`SECRET_KEY` and never assign to them. -/
def handleRequest (interp : String → Token) (st : ServerState) (now : Nat)
    (signFail : Bool) (req : Request) : RouteResponse × ServerState :=
  match req with
  | Request.health => (RouteResponse.healthR (healthRoute now), st)
  | Request.loginReq b => (RouteResponse.loginR (login st.secretKey now signFail st.users b), st)
  | Request.protectedReq h =>
      (RouteResponse.protectedR (protectedRoute interp st.secretKey now h), st)
  | Request.verifyReq b => (RouteResponse.verifyR (verifyRoute interp st.secretKey now b), st)
  | Request.unknownRoute => (RouteResponse.notFoundR 404 false "Endpoint not found", st)

/-- Model of Python `int(s)` on the strings relevant here: a non-empty string
of decimal digits denotes a number; anything else makes `int` raise, modelled
as `none`. -/
def parseNatDigits (s : String) : Option Nat :=
  if s.data ≠ [] ∧ s.data.all Char.isDigit then
    some (s.data.foldl (fun n c => n * 10 + (c.toNat - 48)) 0)
  else none

/-- Startup configuration read from the process environment. -/
structure Config where
  secretKey : String
  jwtExpirationHours : Nat
  port : Option Nat
deriving DecidableEq, Repr

/-- Embedding of the configuration reads in src/app.py: `SECRET_KEY`
(line 19) is `os.getenv` with an insecure default, `JWT_EXPIRATION_HOURS`
(line 20) is the constant 24 with no environment read, and the port
(line 333) is `int(os.getenv("PORT", 5000))`, where `none` models the
`int()` call raising on a non-numeric string. -/
def loadConfig (env : String → Option String) : Config :=
  { secretKey := (env "SECRET_KEY").getD "super-secret-key-change-in-production",
    jwtExpirationHours := JWT_EXPIRATION_HOURS,
    port := match env "PORT" with
            | none => some 5000
            | some s => parseNatDigits s }

/-- An environment with a single variable set. -/
def envSingle (k v : String) : String → Option String :=
  fun q => if q = k then some v else none

/-- The empty environment. -/
def envEmpty : String → Option String := fun _ => none

/-- An environment in which every variable is set to the string `"7"`. -/
def envAll7 : String → Option String := fun _ => some "7"

/-- A concrete JWT wire-format reading used to instantiate theorems that are
proved for every reading `interp`: the string `good` reads as a token signed
with secret `k` for `admin`, anything else as malformed. -/
def interpEx : String → Token :=
  fun s => if s = "good" then Token.signed ⟨"admin", 0, 86400⟩ "k" else Token.malformed s

/-- A string built from a non-empty character list is not the empty string. -/
theorem mk_ne_empty (l : List Char) (h : l ≠ []) : String.mk l ≠ "" := by
  intro habs
  exact h (congrArg String.data habs)

/-- Every piece produced by `pySplitAux` is a non-empty string. -/
theorem pySplitAux_mem_ne_empty :
    ∀ (cs : List Char) (acc : List Char), ∀ s ∈ pySplitAux cs acc, s ≠ "" := by
  intro cs
  induction cs with
  | nil =>
      intro acc s hs
      by_cases h : acc.isEmpty
      · simp [pySplitAux, h] at hs
      · simp [pySplitAux, h] at hs
        subst hs
        refine mk_ne_empty _ ?_
        simp only [ne_eq, List.reverse_eq_nil_iff]
        intro habs
        simp [habs] at h
  | cons c cs ih =>
      intro acc s hs
      by_cases hw : c.isWhitespace
      · by_cases ha : acc.isEmpty
        · simp [pySplitAux, hw, ha] at hs
          exact ih [] s hs
        · simp [pySplitAux, hw, ha] at hs
          cases hs with
          | inl h1 =>
              subst h1
              refine mk_ne_empty _ ?_
              simp only [ne_eq, List.reverse_eq_nil_iff]
              intro habs
              simp [habs] at ha
          | inr h2 => exact ih [] s h2
      · simp [pySplitAux, hw] at hs
        exact ih (c :: acc) s hs

/-- The token string extracted from an `Authorization` header is one of the
whitespace-separated pieces of the header, hence non-empty. -/
theorem get_token_from_header_ne_empty (h tok : String)
    (hg : get_token_from_header (some h) = some tok) : tok ≠ "" := by
  have hmem : tok ∈ pySplit h := by
    by_cases hh : h = ""
    · simp [get_token_from_header, hh] at hg
    · rcases hsp : pySplit h with _ | ⟨a, l⟩
      · simp [get_token_from_header, hh, hsp] at hg
      · rcases l with _ | ⟨b, l2⟩
        · simp [get_token_from_header, hh, hsp] at hg
        · rcases l2 with _ | ⟨c, l3⟩
          · by_cases hb : pyLower a = "bearer"
            · simp [get_token_from_header, hh, hsp, hb] at hg
              subst hg
              simp
            · simp [get_token_from_header, hh, hsp, hb] at hg
          · simp [get_token_from_header, hh, hsp] at hg
  exact pySplitAux_mem_ne_empty h.data [] tok hmem

/-- Stripping the empty string yields the empty string. -/
theorem pyStrip_empty : pyStrip "" = "" := rfl

/-- Definitional unfolding of the `/login` handler on a JSON body: the
submitted username is stripped before the presence check and the store
lookup, while the password is used as submitted. -/
theorem login_some_eq (secret : String) (now : Nat) (signFail : Bool)
    (users : List (String × UserRecord)) (un pw : Option String) :
    login secret now signFail users (some ⟨un, pw⟩)
      = (if pyStrip (un.getD "") = "" ∨ pw.getD "" = "" then
          { status := 400, success := false, message := "Username and password are required" }
        else
          match usersGet users (pyStrip (un.getD "")) with
          | none => { status := 401, success := false, message := "Invalid username or password" }
          | some user =>
              if user.password ≠ pw.getD "" then
                { status := 401, success := false, message := "Invalid username or password" }
              else
                match generate_token secret now signFail (pyStrip (un.getD "")) with
                | none => { status := 500, success := false, message := "Failed to generate token" }
                | some tok =>
                    { status := 200, success := true, message := "Login successful",
                      token := some tok, username := some (pyStrip (un.getD "")),
                      expiresIn := some (JWT_EXPIRATION_HOURS * 3600) }) := rfl

/-- Claim C1: verification succeeds, returning the decoded claims, exactly
when the token is well formed, its HMAC-SHA256 signature was made with the
verifying secret, and the current time is strictly before the token expiry.
The outcome is a function of the token, the secret and the clock alone, so no
other server state affects it; in particular an expired token or a token
signed with a different secret yields `none`. -/
theorem verify_token_iff_valid (secret : String) (now : Nat) (t : Token) (p : Payload) :
    verify_token secret now t = some p ↔ t = Token.signed p secret ∧ now < p.exp := by
  cases t with
  | malformed s =>
      simp [verify_token, jwtDecode]
  | signed q s =>
      constructor
      · intro h
        by_cases hs : s = secret
        · subst hs
          by_cases he : q.exp ≤ now
          · simp [verify_token, jwtDecode, he] at h
          · simp [verify_token, jwtDecode, he] at h
            subst h
            exact ⟨rfl, by omega⟩
        · simp [verify_token, jwtDecode, hs] at h
      · rintro ⟨heq, hlt⟩
        injection heq with h1 h2
        subst h1
        subst h2
        simp [verify_token, jwtDecode, Nat.not_le.mpr hlt]

/-- Claim C1 witness: a concrete token verifies at a time before its expiry. -/
theorem verify_token_iff_valid_witness :
    verify_token "k" 10 (Token.signed ⟨"admin", 0, 86400⟩ "k") = some ⟨"admin", 0, 86400⟩ :=
  (verify_token_iff_valid "k" 10 (Token.signed ⟨"admin", 0, 86400⟩ "k")
    ⟨"admin", 0, 86400⟩).mpr ⟨rfl, by decide⟩

/-- Claim C2: a token produced by `generate_token u` is accepted by
`verify_token` immediately after issuance, with the same secret, and the
claims it yields carry username `u`. -/
theorem generate_then_verify (secret : String) (now : Nat) (signFail : Bool) (u : String)
    (t : Token) (h : generate_token secret now signFail u = some t) :
    ∃ p, verify_token secret now t = some p ∧ p.username = u := by
  cases signFail with
  | true => simp [generate_token] at h
  | false =>
      simp [generate_token, jwtEncode] at h
      refine ⟨⟨u, now, now + JWT_EXPIRATION_HOURS * 3600⟩, ?_, rfl⟩
      rw [← h]
      simp [verify_token, jwtDecode, JWT_EXPIRATION_HOURS]

/-- Claim C2 witness: the token issued for `admin` at time 0 verifies at
time 0 and yields username `admin`. -/
theorem generate_then_verify_witness :
    ∃ p, verify_token "k" 0 (Token.signed ⟨"admin", 0, 86400⟩ "k") = some p
      ∧ p.username = "admin" :=
  generate_then_verify "k" 0 false "admin" (Token.signed ⟨"admin", 0, 86400⟩ "k") (by decide)

/-- Claim C6: `generate_token u` builds a claim set with issued-at equal to
the current time and expiry equal to the current time plus the configured
lifetime of `JWT_EXPIRATION_HOURS = 24` hours, signs it with the shared
secret, and returns the encoded token; it returns the null signal exactly
when the internal signing step fails. -/
theorem generate_token_spec (secret : String) (now : Nat) (signFail : Bool) (u : String) :
    (generate_token secret now signFail u = none ↔ signFail = true)
    ∧ (signFail = false →
        generate_token secret now signFail u
          = some (Token.signed ⟨u, now, now + JWT_EXPIRATION_HOURS * 3600⟩ secret)) := by
  constructor
  · cases signFail <;> simp [generate_token]
  · intro hf
    subst hf
    simp [generate_token, jwtEncode]

/-- Claim C6 witness: concrete issuance at time 5 for `admin`. -/
theorem generate_token_spec_witness :
    generate_token "k" 5 false "admin" = some (Token.signed ⟨"admin", 5, 86405⟩ "k") :=
  (generate_token_spec "k" 5 false "admin").2 rfl

/-- Claim C7: `verify_token` is a total function (the embedding returns a
value, never an exception) and returns the null result `none` on a malformed
token, on a signature made with a different secret, and on an expired token;
all three cases return the very same value, so the caller cannot tell them
apart. -/
theorem verify_token_invalid_cases (secret : String) (now : Nat) :
    (∀ s, verify_token secret now (Token.malformed s) = none)
    ∧ (∀ p s2, s2 ≠ secret → verify_token secret now (Token.signed p s2) = none)
    ∧ (∀ p, p.exp ≤ now → verify_token secret now (Token.signed p secret) = none) := by
  refine ⟨fun s => rfl, ?_, ?_⟩
  · intro p s2 hs
    simp [verify_token, jwtDecode, hs]
  · intro p he
    simp [verify_token, jwtDecode, he]

/-- Claim C7 witness: a malformed string, a token signed with another secret,
and an expired token each yield `none` at concrete inputs. -/
theorem verify_token_invalid_cases_witness :
    verify_token "k" 100 (Token.malformed "zz") = none
    ∧ verify_token "k" 100 (Token.signed ⟨"u", 0, 99999⟩ "other") = none
    ∧ verify_token "k" 100 (Token.signed ⟨"u", 0, 50⟩ "k") = none :=
  ⟨(verify_token_invalid_cases "k" 100).1 "zz",
   (verify_token_invalid_cases "k" 100).2.1 ⟨"u", 0, 99999⟩ "other" (by decide),
   (verify_token_invalid_cases "k" 100).2.2 ⟨"u", 0, 50⟩ (by decide)⟩

/-- Claim C8: every request leaves the server state — the credential store
and the shared secret — unchanged: no route handler or helper creates,
updates or deletes a user record or rebinds the secret. -/
theorem server_state_immutable (interp : String → Token) (st : ServerState) (now : Nat)
    (signFail : Bool) (req : Request) :
    (handleRequest interp st now signFail req).2 = st
    ∧ (handleRequest interp st now signFail req).2.users = st.users
    ∧ (handleRequest interp st now signFail req).2.secretKey = st.secretKey := by
  cases req <;> exact ⟨rfl, rfl, rfl⟩

/-- Claim C3: for every guarded request — whatever the JWT wire reading
`interp` — a missing `Authorization` header, a header not of the form
`Bearer (token)`, or an extracted token failing verification makes the guard
reject with status 401 and a generic message, returning before the wrapped
handler runs; when verification succeeds the guard proceeds, handing the
username from the token claims to the wrapped handler. -/
theorem token_required_guard (interp : String → Token) (secret : String) (now : Nat) :
    (token_required interp secret now none
        = GuardResult.reject 401 false "Missing or invalid authorization header")
    ∧ (∀ h, get_token_from_header (some h) = none →
        token_required interp secret now (some h)
          = GuardResult.reject 401 false "Missing or invalid authorization header")
    ∧ (∀ h tok, get_token_from_header (some h) = some tok →
        verify_token secret now (interp tok) = none →
        token_required interp secret now (some h)
          = GuardResult.reject 401 false "Token expired or invalid")
    ∧ (∀ h tok p, get_token_from_header (some h) = some tok →
        verify_token secret now (interp tok) = some p →
        token_required interp secret now (some h) = GuardResult.proceed p.username) := by
  refine ⟨rfl, ?_, ?_, ?_⟩
  · intro h hg
    simp [token_required, hg]
  · intro h tok hg hv
    simp [token_required, hg, get_token_from_header_ne_empty h tok hg, hv]
  · intro h tok p hg hv
    simp [token_required, hg, get_token_from_header_ne_empty h tok hg, hv]

/-- Claim C3 witness: concrete requests — no header, a `Basic` header, a
bearer token that fails verification, and a bearer token that verifies as
`admin` — take the four branches of the guard. -/
theorem token_required_guard_witness :
    (token_required interpEx "k" 0 none
        = GuardResult.reject 401 false "Missing or invalid authorization header")
    ∧ (token_required interpEx "k" 0 (some "Basic zzz")
        = GuardResult.reject 401 false "Missing or invalid authorization header")
    ∧ (token_required interpEx "k" 0 (some "Bearer bad")
        = GuardResult.reject 401 false "Token expired or invalid")
    ∧ (token_required interpEx "k" 0 (some "Bearer good") = GuardResult.proceed "admin") :=
  ⟨(token_required_guard interpEx "k" 0).1,
   (token_required_guard interpEx "k" 0).2.1 "Basic zzz" (by decide),
   (token_required_guard interpEx "k" 0).2.2.1 "Bearer bad" "bad" (by decide) (by decide),
   (token_required_guard interpEx "k" 0).2.2.2 "Bearer good" "good" ⟨"admin", 0, 86400⟩
     (by decide) (by decide)⟩

/-- Claim C5 counterexample: even in an environment in which every variable
(whatever its name) is set to the string `"7"`, the configured token lifetime
is still 24 hours, exactly as in the empty environment — so the lifetime is
not overridable via any environment variable, contrary to the claim. -/
theorem jwt_lifetime_not_env_overridable :
    (loadConfig envAll7).jwtExpirationHours = (loadConfig envEmpty).jwtExpirationHours
    ∧ (loadConfig envAll7).jwtExpirationHours = 24
    ∧ (loadConfig envAll7).jwtExpirationHours ≠ 7 := by
  exact ⟨rfl, rfl, by decide⟩

/-- Claim C5 (amended): the shared secret and the listen port are each
overridable via an environment variable (`SECRET_KEY`, `PORT`) with insecure
defaults when unset, while the token lifetime in hours is the hardcoded
constant 24 in every environment. -/
theorem config_env_overridability :
    ((loadConfig envEmpty).secretKey = "super-secret-key-change-in-production")
    ∧ (∀ s, (loadConfig (envSingle "SECRET_KEY" s)).secretKey = s)
    ∧ ((loadConfig envEmpty).port = some 5000)
    ∧ (∀ s, (loadConfig (envSingle "PORT" s)).port = parseNatDigits s)
    ∧ (∀ env, (loadConfig env).jwtExpirationHours = 24) := by
  exact ⟨rfl, fun s => rfl, rfl, fun s => rfl, fun env => rfl⟩

/-- Claim C4: the `/login` contract — a missing/non-JSON body or a missing
username or password gives 400; an unknown username or a password that is
not an exact match gives 401; correct credentials give 200 with success,
the username, the freshly signed token and `expiresIn`; a signing failure
gives 500. -/
theorem login_http_contract (secret : String) (now : Nat) (signFail : Bool) :
    ((login secret now signFail USERS none).status = 400)
    ∧ (∀ pw, (login secret now signFail USERS (some ⟨none, pw⟩)).status = 400)
    ∧ (∀ un, (login secret now signFail USERS (some ⟨un, none⟩)).status = 400)
    ∧ (∀ u p, pyStrip u ≠ "" → p ≠ "" → usersGet USERS (pyStrip u) = none →
        (login secret now signFail USERS (some ⟨some u, some p⟩)).status = 401)
    ∧ (∀ u p r, pyStrip u ≠ "" → p ≠ "" → usersGet USERS (pyStrip u) = some r →
        r.password ≠ p →
        (login secret now signFail USERS (some ⟨some u, some p⟩)).status = 401)
    ∧ (∀ u p r, pyStrip u ≠ "" → p ≠ "" → usersGet USERS (pyStrip u) = some r →
        r.password = p →
        login secret now false USERS (some ⟨some u, some p⟩)
          = { status := 200, success := true, message := "Login successful",
              token := some (Token.signed
                ⟨pyStrip u, now, now + JWT_EXPIRATION_HOURS * 3600⟩ secret),
              username := some (pyStrip u),
              expiresIn := some (JWT_EXPIRATION_HOURS * 3600) })
    ∧ (∀ u p r, pyStrip u ≠ "" → p ≠ "" → usersGet USERS (pyStrip u) = some r →
        r.password = p →
        (login secret now true USERS (some ⟨some u, some p⟩)).status = 500) := by
  refine ⟨rfl, ?_, ?_, ?_, ?_, ?_, ?_⟩
  · intro pw
    rw [login_some_eq]
    simp [pyStrip_empty]
  · intro un
    rw [login_some_eq]
    simp
  · intro u p hu hp hl
    rw [login_some_eq]
    simp [hu, hp, hl]
  · intro u p r hu hp hl hr
    rw [login_some_eq]
    simp [hu, hp, hl, hr]
  · intro u p r hu hp hl hr
    rw [login_some_eq]
    simp [hu, hp, hl, hr, generate_token, jwtEncode]
  · intro u p r hu hp hl hr
    rw [login_some_eq]
    simp [hu, hp, hl, hr, generate_token]

/-- Claim C4 witness: concrete requests taking each branch of the `/login`
contract. -/
theorem login_http_contract_witness :
    ((login "k" 0 false USERS none).status = 400)
    ∧ ((login "k" 0 false USERS (some ⟨none, some "pw"⟩)).status = 400)
    ∧ ((login "k" 0 false USERS (some ⟨some "admin", none⟩)).status = 400)
    ∧ ((login "k" 0 false USERS (some ⟨some "ghost", some "pw"⟩)).status = 401)
    ∧ ((login "k" 0 false USERS (some ⟨some "admin", some "bad"⟩)).status = 401)
    ∧ (login "k" 0 false USERS (some ⟨some "admin", some "password123"⟩)
        = { status := 200, success := true, message := "Login successful",
            token := some (Token.signed ⟨"admin", 0, 86400⟩ "k"),
            username := some "admin", expiresIn := some 86400 })
    ∧ ((login "k" 0 true USERS (some ⟨some "admin", some "password123"⟩)).status = 500) :=
  ⟨(login_http_contract "k" 0 false).1,
   (login_http_contract "k" 0 false).2.1 (some "pw"),
   (login_http_contract "k" 0 false).2.2.1 (some "admin"),
   (login_http_contract "k" 0 false).2.2.2.1 "ghost" "pw" (by decide) (by decide) (by decide),
   (login_http_contract "k" 0 false).2.2.2.2.1 "admin" "bad"
     ⟨"admin", "password123", "admin@example.com"⟩ (by decide) (by decide) (by decide) (by decide),
   (login_http_contract "k" 0 false).2.2.2.2.2.1 "admin" "password123"
     ⟨"admin", "password123", "admin@example.com"⟩ (by decide) (by decide) (by decide) (by decide),
   (login_http_contract "k" 0 false).2.2.2.2.2.2 "admin" "password123"
     ⟨"admin", "password123", "admin@example.com"⟩ (by decide) (by decide) (by decide) (by decide)⟩

/-- Claim C9: `/login` strips leading and trailing whitespace from the
submitted username before the presence check and the store lookup, but uses
the submitted password exactly: a whitespace-only username is rejected with
400; a padded username of a stored user with the right password succeeds as
the trimmed name; and a password differing from the stored one (even only by
padding) is rejected with 401. -/
theorem login_trims_username (secret : String) (now : Nat) (signFail : Bool)
    (users : List (String × UserRecord)) :
    (∀ u p, pyStrip u = "" →
        login secret now signFail users (some ⟨some u, some p⟩)
          = { status := 400, success := false,
              message := "Username and password are required" })
    ∧ (∀ u p r, pyStrip u ≠ "" → p ≠ "" → usersGet users (pyStrip u) = some r →
        r.password = p →
        (login secret now false users (some ⟨some u, some p⟩)).status = 200
        ∧ (login secret now false users (some ⟨some u, some p⟩)).username
            = some (pyStrip u))
    ∧ (∀ u p r, pyStrip u ≠ "" → p ≠ "" → usersGet users (pyStrip u) = some r →
        r.password ≠ p →
        (login secret now signFail users (some ⟨some u, some p⟩)).status = 401) := by
  refine ⟨?_, ?_, ?_⟩
  · intro u p hu
    rw [login_some_eq]
    simp [hu]
  · intro u p r hu hp hl hr
    rw [login_some_eq]
    constructor <;> simp [hu, hp, hl, hr, generate_token, jwtEncode]
  · intro u p r hu hp hl hr
    rw [login_some_eq]
    simp [hu, hp, hl, hr]

/-- Claim C9 witness: a whitespace-only username gets 400; the padded
username `  admin  ` with the right password succeeds as `admin`; the exact
stored password padded with a trailing blank is rejected with 401. -/
theorem login_trims_username_witness :
    (login "k" 0 false USERS (some ⟨some "   ", some "pw"⟩)
        = { status := 400, success := false,
            message := "Username and password are required" })
    ∧ ((login "k" 0 false USERS (some ⟨some "  admin  ", some "password123"⟩)).status = 200
        ∧ (login "k" 0 false USERS (some ⟨some "  admin  ", some "password123"⟩)).username
            = some "admin")
    ∧ ((login "k" 0 false USERS (some ⟨some "admin", some "password123 "⟩)).status = 401) :=
  ⟨(login_trims_username "k" 0 false USERS).1 "   " "pw" (by decide),
   (login_trims_username "k" 0 false USERS).2.1 "  admin  " "password123"
     ⟨"admin", "password123", "admin@example.com"⟩ (by decide) (by decide) (by decide) (by decide),
   (login_trims_username "k" 0 false USERS).2.2 "admin" "password123 "
     ⟨"admin", "password123", "admin@example.com"⟩ (by decide) (by decide) (by decide) (by decide)⟩

/-- Claim C10: a well-formed `/login` request naming a username absent from
the credential store and one naming a stored username with a wrong password
receive identical HTTP responses — the same 401 status and the same body —
so the response does not reveal whether the username exists. -/
theorem login_401_indistinguishable (secret : String) (now : Nat) (signFail : Bool)
    (u1 p1 u2 p2 : String) (r : UserRecord)
    (h1 : pyStrip u1 ≠ "") (h2 : p1 ≠ "")
    (h3 : usersGet USERS (pyStrip u1) = none)
    (h4 : pyStrip u2 ≠ "") (h5 : p2 ≠ "")
    (h6 : usersGet USERS (pyStrip u2) = some r) (h7 : r.password ≠ p2) :
    login secret now signFail USERS (some ⟨some u1, some p1⟩)
      = login secret now signFail USERS (some ⟨some u2, some p2⟩)
    ∧ (login secret now signFail USERS (some ⟨some u1, some p1⟩)).status = 401 := by
  have e1 : login secret now signFail USERS (some ⟨some u1, some p1⟩)
      = { status := 401, success := false, message := "Invalid username or password" } := by
    rw [login_some_eq]
    simp [h1, h2, h3]
  have e2 : login secret now signFail USERS (some ⟨some u2, some p2⟩)
      = { status := 401, success := false, message := "Invalid username or password" } := by
    rw [login_some_eq]
    simp [h4, h5, h6, h7]
  rw [e1, e2]
  exact ⟨rfl, rfl⟩

/-- Claim C10 witness: the unknown username `ghost` and the stored username
`admin` with a wrong password receive identical 401 responses. -/
theorem login_401_indistinguishable_witness :
    login "k" 0 false USERS (some ⟨some "ghost", some "pw"⟩)
      = login "k" 0 false USERS (some ⟨some "admin", some "bad"⟩)
    ∧ (login "k" 0 false USERS (some ⟨some "ghost", some "pw"⟩)).status = 401 :=
  login_401_indistinguishable "k" 0 false "ghost" "pw" "admin" "bad"
    ⟨"admin", "password123", "admin@example.com"⟩ (by decide) (by decide) (by decide)
    (by decide) (by decide) (by decide) (by decide)

end AuthLab
